import Mathlib

/-!
Verification of the Product catalog CRUD service.

The request-handling layer is embedded from `src/service/routes.py`.
The entity layer (`service/models.py`) and the application error handlers
(`service/common`) are not present in the repository snapshot; those
parts are modelled from the spec (sections 3, 4.1 and 7) and are marked
`Modelled from the spec:` in their doc comments.

HTTP requests are embedded as explicit arguments (query parameters as
`Option String`, the Content-Type header value as `Option String`, the
parsed JSON body as an optional mapping) and the relational store as a
list of persisted products; each handler is a function from request and
store to a response, paired with the new store when the handler mutates.
-/

namespace ProductService

/-- Modelled from the spec: `service/models.py` is not under `src/`.
Closed enumeration of product category tags (spec section 3 names
UNKNOWN, CLOTHS, FOOD among its members). -/
inductive Category where
  | UNKNOWN
  | CLOTHS
  | FOOD
  | HOUSEWARES
  | TOOLS
  deriving DecidableEq, Repr

/-- Modelled from the spec: the enumeration member's name string, used by
serialization and by `getattr(Category, ...)` lookups. -/
def Category.catName : Category → String
  | .UNKNOWN => "UNKNOWN"
  | .CLOTHS => "CLOTHS"
  | .FOOD => "FOOD"
  | .HOUSEWARES => "HOUSEWARES"
  | .TOOLS => "TOOLS"

/-- Modelled from the spec: embedding of Python's `getattr(Category, s)`
on the enumeration — returns the member whose name is exactly `s`, and
`none` (an attribute lookup failure in Python) otherwise. -/
def Category.fromName (s : String) : Option Category :=
  if s = "UNKNOWN" then some .UNKNOWN
  else if s = "CLOTHS" then some .CLOTHS
  else if s = "FOOD" then some .FOOD
  else if s = "HOUSEWARES" then some .HOUSEWARES
  else if s = "TOOLS" then some .TOOLS
  else none

/-- Modelled from the spec: the Product entity of spec section 3.
`id` is `none` until the store assigns one; `price` is carried as its
decimal string form, the form it round-trips in at the boundary. -/
structure Product where
  id : Option Nat
  name : String
  description : String
  price : String
  available : Bool
  category : Category
  deriving DecidableEq, Repr

/-- Modelled from the spec: validation errors raised by the entity layer
(`DataValidationError` in `service/models.py`), distinguished from
store-level failures. -/
inductive ModelError where
  | DataValidationError (msg : String)
  deriving DecidableEq, Repr

/-- Modelled from the spec: a fresh Product as built by `Product()` —
all attributes unset before `deserialize` populates them. -/
def Product.new : Product :=
  { id := none, name := "", description := "", price := "", available := false,
    category := .UNKNOWN }

/-- Modelled from the spec: the JSON-safe mapping produced by
`Product.serialize()` — all attributes, `price` as a decimal string,
`category` as its enumeration name, `available` as a boolean. -/
structure ProductJSON where
  id : Option Nat
  name : String
  description : String
  price : String
  available : Bool
  category : String
  deriving DecidableEq, Repr

/-- Modelled from the spec: `Product.serialize()`. -/
def Product.serialize (p : Product) : ProductJSON :=
  { id := p.id, name := p.name, description := p.description, price := p.price,
    available := p.available, category := p.category.catName }

/-- A parsed JSON request body: each attribute optional, so that missing
required attributes are representable. -/
structure JsonBody where
  id : Option Nat := none
  name : Option String := none
  description : Option String := none
  price : Option String := none
  available : Option Bool := none
  category : Option String := none
  deriving DecidableEq, Repr

/-- Modelled from the spec: `Product.deserialize(mapping)` of spec
section 4.1 — populates attributes from the mapping; fails with a
validation error when `name` or `price` is missing, `available` is
missing, or `category` is missing or not a recognized enumeration name;
`description` is optional and defaults to empty. An `id` present in the
mapping is taken over, which the update route then overrides with the
path id. -/
def Product.deserialize (self : Product) (data : JsonBody) :
    Except ModelError Product :=
  match data.name with
  | none => .error (.DataValidationError "Invalid product: missing name")
  | some n =>
    match data.price with
    | none => .error (.DataValidationError "Invalid product: missing price")
    | some pr =>
      match data.available with
      | none => .error (.DataValidationError "Invalid product: missing available")
      | some av =>
        match data.category with
        | none => .error (.DataValidationError "Invalid product: missing category")
        | some catStr =>
          match Category.fromName catStr with
          | none => .error (.DataValidationError
              ("Invalid attribute: " ++ catStr))
          | some cat => .ok
              { id := match data.id with
                      | some i => some i
                      | none => self.id,
                name := n,
                description := (data.description).getD "",
                price := pr,
                available := av,
                category := cat }

/-- The relational store: one row per persisted Product. -/
abbrev Store := List Product

/-- Modelled from the spec: `Product.all()` — every row. -/
def Product.all (store : Store) : List Product := store

/-- Modelled from the spec: `Product.find(id)` — lookup by primary key,
absent result (not an error) when no row matches. -/
def Product.find (store : Store) (pid : Nat) : Option Product :=
  store.find? (fun p => p.id = some pid)

/-- Modelled from the spec: `Product.find_by_name(name)` — exact,
case-sensitive match. -/
def find_by_name (store : Store) (n : String) : List Product :=
  store.filter (fun p => p.name = n)

/-- Modelled from the spec: `Product.find_by_category(category)` — exact
match on the enumeration value. -/
def find_by_category (store : Store) (c : Category) : List Product :=
  store.filter (fun p => p.category = c)

/-- Modelled from the spec: `Product.find_by_availability(flag)` — exact
match on the boolean. -/
def find_by_availability (store : Store) (b : Bool) : List Product :=
  store.filter (fun p => p.available = b)

/-- Modelled from the spec: the id the store assigns on create — fresh,
one more than any id in use. -/
def nextId (store : Store) : Nat :=
  (store.foldr (fun p acc => max ((p.id).getD 0) acc) 0) + 1

/-- Modelled from the spec: `Product.update()` of spec section 4.1 and
`test_update_a_product_withoutID` — fails with a validation error (not a
not-found state) when `id` is unset, since an unset id cannot identify a
target row; otherwise replaces the row matching `id`. On error no new
store is produced, so the store is unmodified. -/
def Product.update (store : Store) (p : Product) : Except ModelError Store :=
  match p.id with
  | none => .error (.DataValidationError "Update called with empty ID field")
  | some pid => .ok (store.map (fun q => if q.id = some pid then p else q))

/-- Modelled from the spec: `Product.delete()` — removes the row matching
the product's `id`. -/
def Product.deleteRow (store : Store) (p : Product) : Store :=
  store.filter (fun q => q.id ≠ p.id)

/-! ## The HTTP surface, embedded from `src/service/routes.py` -/

/-- The body of an HTTP response: a serialized product list, a single
serialized product, plain text, or a structured JSON error with a
message field. -/
inductive RespBody where
  | jsonList (items : List ProductJSON)
  | jsonObj (item : ProductJSON)
  | text (s : String)
  | errorObj (msg : String)
  deriving DecidableEq, Repr

/-- An HTTP response: numeric status code plus body. -/
structure Response where
  status : Nat
  body : RespBody
  deriving DecidableEq, Repr

/-- The parts of a write request the handlers look at: the value of the
`Content-Type` header when the header is present, and the parsed JSON
body (`none` when the body is absent or malformed). -/
structure Request where
  contentType : Option String
  body : Option JsonBody
  deriving DecidableEq, Repr

/-- Embeds `check_content_type` (routes.py lines 49-65): aborts with 415
when the `Content-Type` header is absent, returns normally when the
header value equals the expected string exactly, and aborts with 415 on
any other value. `none` means the check passed. -/
def check_content_type (content_type : String) (req : Request) :
    Option Response :=
  match req.contentType with
  | none => some { status := 415,
                   body := .errorObj ("Content-Type must be " ++ content_type) }
  | some ct =>
    if ct = content_type then none
    else some { status := 415,
                body := .errorObj ("Content-Type must be " ++ content_type) }

/-- Python truthiness of `request.args.get(...)`: `None` and the empty
string are falsy, every other string truthy. -/
def isTruthy : Option String → Bool
  | none => false
  | some s => s != ""

/-- Embedding of Python's `str.upper()`: uppercase every character. -/
def pyUpper (s : String) : String := ⟨s.data.map Char.toUpper⟩

/-- Embedding of Python's `str.lower()`: lowercase every character. -/
def pyLower (s : String) : String := ⟨s.data.map Char.toLower⟩

/-- Embeds line 136 of routes.py: `available.lower() in ["true", "yes", "1"]`. -/
def available_value (s : String) : Bool :=
  ["true", "yes", "1"].contains (pyLower s)

/-- Modelled from the spec: the application error handlers in
`service/common` are not under `src/`. The unrecognized-category lookup
failure raised at routes.py line 128 is mapped by them to a client error
400, per spec sections 4.2 and 7 (unknown enumeration value is a
validation error mapped to 400, never an unhandled fault). -/
def unknownCategoryResponse (cat : String) : Response :=
  { status := 400, body := .errorObj ("Invalid attribute: " ++ cat) }

/-- Modelled from the spec: the 400 response the error handlers produce
from a `DataValidationError` or an unparseable body (spec section 7). -/
def validationErrorResponse (msg : String) : Response :=
  { status := 400, body := .errorObj msg }

/-- Embeds `list_products` (routes.py lines 102-150): reads the `name`,
`category` and `available` query parameters; if `name` is truthy filters
by name; else if `category` is truthy resolves it via
`getattr(Category, category.upper())` and filters by category (an
unrecognized name raises, mapped to 400 by the spec-modelled handlers);
else if `available` is truthy parses it with the truthy set and filters
by availability; else lists all. Serializes the result with status 200. -/
def list_products (name category available : Option String) (store : Store) :
    Response :=
  if isTruthy name then
    { status := 200,
      body := .jsonList ((find_by_name store (name.getD "")).map Product.serialize) }
  else if isTruthy category then
    match Category.fromName (pyUpper (category.getD "")) with
    | some category_value =>
      { status := 200,
        body := .jsonList ((find_by_category store category_value).map Product.serialize) }
    | none => unknownCategoryResponse (category.getD "")
  else if isTruthy available then
    { status := 200,
      body := .jsonList
        ((find_by_availability store (available_value (available.getD ""))).map
          Product.serialize) }
  else
    { status := 200, body := .jsonList ((Product.all store).map Product.serialize) }

/-- Embeds `get_products` (routes.py lines 155-172): find by id, 404 with
a message naming the id when absent, else the serialized product with 200. -/
def get_products (product_id : Nat) (store : Store) : Response :=
  match Product.find store product_id with
  | none => { status := 404,
              body := .errorObj ("Product with id '" ++ toString product_id ++
                                 "' was not found.") }
  | some product => { status := 200, body := .jsonObj product.serialize }

/-- Embeds `create_products` (routes.py lines 71-94): content-type guard
first, then parse the body (a missing or malformed body is a client
error via the spec-modelled handlers), deserialize onto a fresh Product,
persist with a store-assigned id, return 201 with the serialized product. -/
def create_products (req : Request) (store : Store) : Response × Store :=
  match check_content_type "application/json" req with
  | some resp => (resp, store)
  | none =>
    match req.body with
    | none => (validationErrorResponse "Invalid product: body could not be parsed", store)
    | some data =>
      match Product.new.deserialize data with
      | .error (.DataValidationError msg) => (validationErrorResponse msg, store)
      | .ok product =>
        let product := { product with id := some (nextId store) }
        ({ status := 201, body := .jsonObj product.serialize }, store ++ [product])

/-- Embeds `update_products` (routes.py lines 177-201): content-type
guard first, then find by path id (404 when absent), deserialize the
body onto the found product (validation failure mapped to 400 by the
spec-modelled handlers), force `product.id` to the path id (line 197),
persist with `product.update()`, return the serialized product with 200. -/
def update_products (product_id : Nat) (req : Request) (store : Store) :
    Response × Store :=
  match check_content_type "application/json" req with
  | some resp => (resp, store)
  | none =>
    match Product.find store product_id with
    | none => ({ status := 404,
                 body := .errorObj ("Product with id '" ++ toString product_id ++
                                    "' was not found.") }, store)
    | some product =>
      match req.body with
      | none => (validationErrorResponse "Invalid product: body could not be parsed", store)
      | some data =>
        match product.deserialize data with
        | .error (.DataValidationError msg) => (validationErrorResponse msg, store)
        | .ok product =>
          let product := { product with id := some product_id }
          match Product.update store product with
          | .error (.DataValidationError msg) => (validationErrorResponse msg, store)
          | .ok newStore =>
            ({ status := 200, body := .jsonObj product.serialize }, newStore)

/-- Embeds `delete_products` (routes.py lines 206-223): find by path id,
delete when found, and return an empty body with 204 in every case. -/
def delete_products (product_id : Nat) (store : Store) : Response × Store :=
  match Product.find store product_id with
  | some product => ({ status := 204, body := .text "" }, Product.deleteRow store product)
  | none => ({ status := 204, body := .text "" }, store)

/-! ## Concrete data used by witnesses -/

/-- A persisted sample product (the Fedora of spec section 8). -/
def demoProduct : Product :=
  { id := some 1, name := "Fedora", description := "A red hat", price := "12.50",
    available := true, category := .CLOTHS }

/-- A valid update body whose `id` (99) differs from the path id used in
the update witness (1). -/
def demoBody : JsonBody :=
  { id := some 99, name := some "Fedora", description := some "blue",
    price := some "12.50", available := some false, category := some "CLOTHS" }

/-- The product `demoProduct.deserialize demoBody` produces, before the
route forces the path id. -/
def updatedProduct : Product :=
  { id := some 99, name := "Fedora", description := "blue", price := "12.50",
    available := false, category := .CLOTHS }

end ProductService

/-! ## Theorems settling the claims -/

namespace ProductService

/-- Claim C1, counterexample to the claim as stated: the request
`GET /products?name=Fedora&category=bogus` has a non-empty `category`
parameter that names no Category member, yet the response has status 200
(the `name` filter takes precedence at routes.py line 119), not 400. -/
theorem claim_C1_counterexample :
    isTruthy (some "bogus") = true ∧
    Category.fromName (pyUpper "bogus") = none ∧
    (list_products (some "Fedora") (some "bogus") none []).status = 200 := by
  decide

/-- Claim C1 (amended): for every `GET /products` request whose
`category` query parameter is a non-empty string that does not name
(case-insensitively) any member of the Category enumeration, and whose
`name` query parameter is absent or empty, the response is a client
error with status 400, not an unhandled server fault. -/
theorem claim_C1 (name category available : Option String) (cat : String) (store : Store)
    (hname : isTruthy name = false)
    (hcat : category = some cat) (hne : cat ≠ "")
    (hunrec : Category.fromName (pyUpper cat) = none) :
    (list_products name category available store).status = 400 := by
  subst hcat
  have hc : isTruthy (some cat) = true := by simp [isTruthy, hne]
  simp [list_products, hname, hc, hunrec, unknownCategoryResponse]

/-- Claim C1 witness: `GET /products?category=bogus` on a one-product
store answers 400. -/
theorem claim_C1_witness :
    isTruthy (none : Option String) = false ∧
    "bogus" ≠ "" ∧
    Category.fromName (pyUpper "bogus") = none ∧
    (list_products none (some "bogus") none [demoProduct]).status = 400 :=
  ⟨by decide, by decide, by decide,
    claim_C1 none (some "bogus") none "bogus" [demoProduct] (by decide) rfl
      (by decide) (by decide)⟩

/-- Claim C2: the list handler checks its filters in the fixed
precedence order name, category, available; with none supplied it lists
all products. Each equation holds for every store, so the status is 200
even when the resulting list is empty. A parameter counts as supplied
when it is present and non-empty, matching the handler's truthiness
tests; a supplied category must also resolve to an enumeration member
for the category filter to answer (an unrecognized one is claim C1). -/
theorem claim_C2 (name category available : Option String) (store : Store) :
    (∀ s, name = some s → s ≠ "" →
      list_products name category available store =
        { status := 200,
          body := .jsonList ((find_by_name store s).map Product.serialize) }) ∧
    (isTruthy name = false → ∀ s c, category = some s → s ≠ "" →
      Category.fromName (pyUpper s) = some c →
      list_products name category available store =
        { status := 200,
          body := .jsonList ((find_by_category store c).map Product.serialize) }) ∧
    (isTruthy name = false → isTruthy category = false → ∀ s, available = some s → s ≠ "" →
      list_products name category available store =
        { status := 200,
          body := .jsonList
            ((find_by_availability store (available_value s)).map Product.serialize) }) ∧
    (isTruthy name = false → isTruthy category = false → isTruthy available = false →
      list_products name category available store =
        { status := 200,
          body := .jsonList ((Product.all store).map Product.serialize) }) := by
  refine ⟨?_, ?_, ?_, ?_⟩
  · intro s hs hne
    subst hs
    have hc : isTruthy (some s) = true := by simp [isTruthy, hne]
    simp [list_products, hc]
  · intro hname s c hs hne hrec
    subst hs
    have hc : isTruthy (some s) = true := by simp [isTruthy, hne]
    simp [list_products, hname, hc, hrec]
  · intro hname hcat s hs hne
    subst hs
    have hc : isTruthy (some s) = true := by simp [isTruthy, hne]
    simp [list_products, hname, hcat, hc]
  · intro hname hcat havail
    simp [list_products, hname, hcat, havail, Product.all]

/-- Claim C2 witness: on an empty store, `GET /products?available=zz`
reaches the availability branch and still answers 200 with an empty
list. -/
theorem claim_C2_witness :
    list_products none none (some "zz") [] =
      { status := 200, body := .jsonList [] } := by
  have h := (claim_C2 none none (some "zz") ([] : Store)).2.2.1
  exact h (by decide) (by decide) "zz" rfl (by decide)

/-- Claim C3: when a product with the path id exists and the body passes
validation, `PUT /products/{id}` returns a product whose `id` equals the
path id — whatever id the body carries — and the product persisted in
the new store also carries the path id (routes.py line 197 forces it
before `update()`). -/
theorem claim_C3 (pid : Nat) (req : Request) (store : Store) (p q : Product) (data : JsonBody)
    (hct : req.contentType = some "application/json")
    (hbody : req.body = some data)
    (hfind : Product.find store pid = some p)
    (hdeser : p.deserialize data = .ok q) :
    (update_products pid req store).1 =
      { status := 200, body := .jsonObj (Product.serialize { q with id := some pid }) } ∧
    (Product.serialize { q with id := some pid }).id = some pid ∧
    { q with id := some pid } ∈ (update_products pid req store).2 := by
  obtain ⟨ct, body⟩ := req
  simp only at hct hbody
  subst hct
  subst hbody
  have hguard : check_content_type "application/json"
      { contentType := some "application/json", body := some data } = none := by
    simp [check_content_type]
  have hmem : p ∈ store := List.mem_of_find?_eq_some hfind
  have hpid : p.id = some pid := by
    have h2 := List.find?_some hfind
    exact of_decide_eq_true h2
  have hcalc : update_products pid
      { contentType := some "application/json", body := some data } store =
      ({ status := 200, body := .jsonObj (Product.serialize { q with id := some pid }) },
        store.map (fun r => if r.id = some pid then { q with id := some pid } else r)) := by
    simp [update_products, hguard, hfind, hdeser, Product.update]
  rw [hcalc]
  refine ⟨rfl, by simp [Product.serialize], ?_⟩
  exact List.mem_map.mpr ⟨p, hmem, by simp [hpid]⟩

/-- Claim C3 witness: updating product 1 with a body whose id is 99
returns and persists id 1. -/
theorem claim_C3_witness :
    Product.find [demoProduct] 1 = some demoProduct ∧
    demoProduct.deserialize demoBody = .ok updatedProduct ∧
    demoBody.id = some 99 ∧
    (update_products 1 { contentType := some "application/json", body := some demoBody }
        [demoProduct] : Response × Store).1 =
      { status := 200,
        body := .jsonObj (Product.serialize { updatedProduct with id := some 1 }) } ∧
    (Product.serialize { updatedProduct with id := some 1 }).id = some 1 ∧
    { updatedProduct with id := some 1 } ∈
      (update_products 1 { contentType := some "application/json", body := some demoBody }
        [demoProduct] : Response × Store).2 := by
  have h := claim_C3 1 { contentType := some "application/json", body := some demoBody }
    [demoProduct] demoProduct updatedProduct demoBody rfl rfl (by decide) (by rfl)
  exact ⟨by decide, by rfl, rfl, h.1, h.2.1, h.2.2⟩

/-- Claim C4: `DELETE /products/{id}` answers 204 with an empty body for
every id and store, deleting twice answers 204 both times, and a `GET`
on the id after the delete answers 404. -/
theorem claim_C4 (pid : Nat) (store : Store) :
    (delete_products pid store).1 = { status := 204, body := .text "" } ∧
    (delete_products pid (delete_products pid store).2).1 =
      { status := 204, body := .text "" } ∧
    get_products pid (delete_products pid store).2 =
      { status := 404,
        body := .errorObj ("Product with id '" ++ toString pid ++ "' was not found.") } := by
  have hresp : ∀ st : Store, (delete_products pid st).1 =
      { status := 204, body := .text "" } := by
    intro st
    rcases h : Product.find st pid with _ | pr <;> simp [delete_products, h]
  have hnone : Product.find (delete_products pid store).2 pid = none := by
    rcases h : Product.find store pid with _ | pr
    · simp [delete_products, h]
    · have hpid : pr.id = some pid := by
        have h2 := List.find?_some h
        exact of_decide_eq_true h2
      simp only [delete_products, h]
      rw [Product.find, List.find?_eq_none]
      intro a ha
      have hne := (List.mem_filter.mp ha).2
      simp [Product.deleteRow, hpid] at hne ⊢
      exact hne
  exact ⟨hresp store, hresp _, by simp [get_products, hnone]⟩

/-- Claim C5: the `available` parameter parses to true exactly when its
lowercased form is `true`, `yes` or `1`, and to false for every other
non-empty string; so `?available=yes`, `?available=1` and
`?available=true` select the same subset, and `?available=no` and
`?available=false` both select the not-available subset. -/
theorem claim_C5 (s : String) (store : Store)
    (h₁ : s ≠ "")
    (h₂ : ¬(pyLower s = "true" ∨ pyLower s = "yes" ∨ pyLower s = "1")) :
    (∀ t : String, available_value t = true ↔
        (pyLower t = "true" ∨ pyLower t = "yes" ∨ pyLower t = "1")) ∧
    available_value s = false ∧
    list_products none none (some s) store =
      { status := 200,
        body := .jsonList ((find_by_availability store false).map Product.serialize) } ∧
    list_products none none (some "yes") store =
      list_products none none (some "1") store ∧
    list_products none none (some "1") store =
      list_products none none (some "true") store ∧
    list_products none none (some "yes") store =
      { status := 200,
        body := .jsonList ((find_by_availability store true).map Product.serialize) } ∧
    list_products none none (some "no") store =
      list_products none none (some "false") store ∧
    list_products none none (some "no") store =
      { status := 200,
        body := .jsonList ((find_by_availability store false).map Product.serialize) } := by
  have hmem : ∀ t : String, available_value t = true ↔
      (pyLower t = "true" ∨ pyLower t = "yes" ∨ pyLower t = "1") := by
    intro t
    simp [available_value, List.elem_iff]
  have hs : available_value s = false := by
    rcases hval : available_value s with _ | _
    · rfl
    · exact absurd ((hmem s).mp hval) h₂
  have hyes : available_value "yes" = true := by decide
  have hone : available_value "1" = true := by decide
  have htrue : available_value "true" = true := by decide
  have hno : available_value "no" = false := by decide
  have hfalse : available_value "false" = false := by decide
  refine ⟨hmem, hs, ?_, ?_, ?_, ?_, ?_, ?_⟩ <;>
    simp [list_products, isTruthy, h₁, hs, hyes, hone, htrue, hno, hfalse]

/-- Claim C5 witness: `maybe` is a non-empty string outside the truthy
set; `GET /products?available=maybe` selects the not-available subset. -/
theorem claim_C5_witness :
    "maybe" ≠ "" ∧
    ¬(pyLower "maybe" = "true" ∨ pyLower "maybe" = "yes" ∨ pyLower "maybe" = "1") ∧
    available_value "maybe" = false ∧
    list_products none none (some "maybe") [demoProduct] =
      { status := 200,
        body := .jsonList ((find_by_availability [demoProduct] false).map Product.serialize) } :=
  ⟨by decide, by decide,
    (claim_C5 "maybe" [demoProduct] (by decide) (by decide)).2.1,
    (claim_C5 "maybe" [demoProduct] (by decide) (by decide)).2.2.1⟩

/-- Claim C6: when the `Content-Type` header is missing or differs from
`application/json`, both `POST /products` and `PUT /products/{id}`
answer 415 and leave the store unchanged, whatever the body holds — the
guard runs before the body is parsed and before any persistence. -/
theorem claim_C6 (req : Request) (store : Store) (pid : Nat)
    (h : req.contentType ≠ some "application/json") :
    (create_products req store).1.status = 415 ∧
    (create_products req store).2 = store ∧
    (update_products pid req store).1.status = 415 ∧
    (update_products pid req store).2 = store := by
  obtain ⟨ct, body⟩ := req
  cases ct with
  | none => simp [create_products, update_products, check_content_type]
  | some c =>
    have hc : c ≠ "application/json" := by
      intro hh
      exact h (by rw [hh])
    simp [create_products, update_products, check_content_type, hc]

/-- Claim C6 witness: a request with no `Content-Type` header gets 415
from create and update and the one-product store is untouched. -/
theorem claim_C6_witness :
    ({ contentType := none, body := none } : Request).contentType ≠
        some "application/json" ∧
    (create_products { contentType := none, body := none } [demoProduct]).1.status = 415 ∧
    (create_products { contentType := none, body := none } [demoProduct]).2 = [demoProduct] ∧
    (update_products 1 { contentType := none, body := none } [demoProduct]).1.status = 415 ∧
    (update_products 1 { contentType := none, body := none } [demoProduct]).2 = [demoProduct] :=
  ⟨by decide,
    (claim_C6 { contentType := none, body := none } [demoProduct] 1 (by decide)).1,
    (claim_C6 { contentType := none, body := none } [demoProduct] 1 (by decide)).2.1,
    (claim_C6 { contentType := none, body := none } [demoProduct] 1 (by decide)).2.2.1,
    (claim_C6 { contentType := none, body := none } [demoProduct] 1 (by decide)).2.2.2⟩

/-- Claim C7: `Product.update()` on a product whose id is unset fails
with a `DataValidationError` — not a not-found result — and produces no
new store, so the store is unmodified. -/
theorem claim_C7 (store : Store) (p : Product) (h : p.id = none) :
    Product.update store p =
      .error (.DataValidationError "Update called with empty ID field") ∧
    ∀ store₂ : Store, Product.update store p ≠ .ok store₂ := by
  have h1 : Product.update store p =
      .error (.DataValidationError "Update called with empty ID field") := by
    simp [Product.update, h]
  refine ⟨h1, fun store₂ hc => ?_⟩
  rw [h1] at hc
  exact Except.noConfusion hc

/-- Claim C7 witness: updating the sample product with its id cleared
fails with the validation error. -/
theorem claim_C7_witness :
    ({ demoProduct with id := none } : Product).id = none ∧
    Product.update [demoProduct] { demoProduct with id := none } =
      .error (.DataValidationError "Update called with empty ID field") :=
  ⟨rfl, (claim_C7 [demoProduct] { demoProduct with id := none } rfl).1⟩

/-- Claim C8: two case variants of a recognized category name (same
string after uppercasing) give identical `GET /products?category=...`
responses on every store. -/
theorem claim_C8 (s₁ s₂ : String) (available : Option String) (store : Store) (c : Category)
    (h₁ : s₁ ≠ "") (h₂ : s₂ ≠ "")
    (hup : pyUpper s₁ = pyUpper s₂)
    (hrec : Category.fromName (pyUpper s₁) = some c) :
    list_products none (some s₁) available store =
      list_products none (some s₂) available store := by
  have hrec₂ : Category.fromName (pyUpper s₂) = some c := by rw [← hup]; exact hrec
  simp [list_products, isTruthy, h₁, h₂, hrec, hrec₂]

/-- Claim C8 witness: `?category=clothS` and `?category=CLOTHS` return
the same response on the one-product store. -/
theorem claim_C8_witness :
    pyUpper "clothS" = pyUpper "CLOTHS" ∧
    Category.fromName (pyUpper "clothS") = some Category.CLOTHS ∧
    list_products none (some "clothS") none [demoProduct] =
      list_products none (some "CLOTHS") none [demoProduct] :=
  ⟨by decide, by decide,
    claim_C8 "clothS" "CLOTHS" none [demoProduct] Category.CLOTHS
      (by decide) (by decide) (by decide) (by decide)⟩

/-- Claim C9: a filter parameter supplied as the empty string is treated
exactly as an absent one — the handler tests truthiness, not presence —
for each of the three parameters. -/
theorem claim_C9 (name category available : Option String) (store : Store) :
    list_products (some "") category available store =
      list_products none category available store ∧
    list_products name (some "") available store =
      list_products name none available store ∧
    list_products name category (some "") store =
      list_products name category none store := by
  refine ⟨?_, ?_, ?_⟩ <;> simp [list_products, isTruthy]

/-- Claim C10: the content-type guard accepts only the exact string
`application/json`; any other header value — including
`application/json; charset=utf-8` — gets 415 from create and update. -/
theorem claim_C10 (ct : String) (body : Option JsonBody) (store : Store) (pid : Nat)
    (h : ct ≠ "application/json") :
    (create_products { contentType := some ct, body := body } store).1.status = 415 ∧
    (update_products pid { contentType := some ct, body := body } store).1.status = 415 := by
  simp [create_products, update_products, check_content_type, h]

/-- Claim C10 witness: `application/json; charset=utf-8` is rejected
with 415 by both write endpoints. -/
theorem claim_C10_witness :
    "application/json; charset=utf-8" ≠ "application/json" ∧
    (create_products
        { contentType := some "application/json; charset=utf-8", body := none }
        [demoProduct]).1.status = 415 ∧
    (update_products 1
        { contentType := some "application/json; charset=utf-8", body := none }
        [demoProduct]).1.status = 415 :=
  ⟨by decide,
    (claim_C10 "application/json; charset=utf-8" none [demoProduct] 1 (by decide)).1,
    (claim_C10 "application/json; charset=utf-8" none [demoProduct] 1 (by decide)).2⟩

end ProductService
